import Mathlib

set_option maxHeartbeats 1000000
set_option maxRecDepth 8000

/-!
Shallow embedding of the ThermoMoDuino chiller controller
(src/ThermoMoDuino/ThermoMoDuino.ino).

Temperatures are modelled as rationals; the thermistor
resistance-to-temperature conversion (a transcendental law applied before
any control decision) is treated as an opaque producer of converted
values, so every per-iteration sensor input below is the freshly
converted temperature that the source computes right before smoothing.
All Arduino `unsigned long` arithmetic is modelled as natural numbers
reduced modulo 2^32.
-/

/-- Modulus of Arduino `unsigned long` (32-bit) arithmetic. -/
def M : Nat := 4294967296

/-- One second in milliseconds (the SECOND define, line 80). -/
def SECOND : Nat := 1000

/-- 32-bit wrapping subtraction, as C computes `a - b` on unsigned long
(for operands already reduced below 2^32). -/
def u32sub (a b : Nat) : Nat := (a + M - b) % M

/-- Source `float hysteresis = 0.8` (line 56). -/
def hysteresis : ℚ := 8/10

/-- Source `float targetTemp = 16.0` (line 57). -/
def targetTemp : ℚ := 16

/-- Source `#define CASE_TEMP_MARGIN 2.0` (line 62). -/
def CASE_TEMP_MARGIN : ℚ := 2

/-- Source `#define CASE_TEMP_ROOF 30` (line 63). -/
def CASE_TEMP_ROOF : ℚ := 30

/-- Source `#define HOLD_TIME 600` (line 66). -/
def HOLD_TIME : Nat := 600

/-- Source `#define COOLDOWN_TIME 60` (line 67). -/
def COOLDOWN_TIME : Nat := 60

/-- Source `#define T_MAX 50.0` (line 89). -/
def T_MAX : ℚ := 50

/-- Source `#define T_MIN 3.0` (line 90). -/
def T_MIN : ℚ := 3

/-- Source `#define T2_MAX 55.0` (line 91). -/
def T2_MAX : ℚ := 55

/-- Source `#define T2_MIN 3.0` (line 92). -/
def T2_MIN : ℚ := 3

/-- The time-base state: `nextSecondTick` and `seconds` (lines 83-84). -/
structure TB where
  nextSecondTick : Nat
  seconds : Nat

/-- One pass of the second-counter calculation (lines 375-388):
`if (!(nextSecondTick < 1001 && thisTick > 1001)) { if (thisTick >
nextSecondTick) { seconds++; nextSecondTick += SECOND; tick=true; } else
tick=false; } else tick=false;`. -/
def timeStep (tb : TB) (thisTick : Nat) : TB × Bool :=
  if ¬(tb.nextSecondTick < 1001 ∧ thisTick > 1001) then
    if thisTick > tb.nextSecondTick then
      (⟨(tb.nextSecondTick + SECOND) % M, (tb.seconds + 1) % M⟩, true)
    else
      (tb, false)
  else
    (tb, false)

/-- Initialization of the time base (lines 365-366): `lastTick=millis();
nextSecondTick=millis()+SECOND;` with `seconds` still at its global
initial value 0.  The argument is the value returned by `millis()`. -/
def tbInit (t0ms : Nat) : TB := ⟨(t0ms + SECOND) % M, 0⟩

/-- Feeding a list of `millis()` readings (one per loop iteration) to the
time base. -/
def runTB (tb : TB) : List Nat → TB
  | [] => tb
  | t :: ts => runTB (timeStep tb t).1 ts

/-- Ghost tick counter for the time-base analysis: `B0 + 1000 * j` is the
real (unwrapped) position of the next second boundary after `j` ticks;
a tick is due exactly when a sample's real time passes it. -/
def ghostRun (B0 : Nat) : Nat → List Nat → Nat
  | j, [] => j
  | j, t :: ts => ghostRun B0 (if B0 + 1000 * j < t then j + 1 else j) ts

/-- The sample times are strictly increasing with consecutive gaps of at
most `g` milliseconds, starting from `tlast`. -/
def gapsOKb (g : Nat) : Nat → List Nat → Bool
  | _, [] => true
  | tlast, t :: ts => decide (tlast < t) && decide (t ≤ tlast + g) && gapsOKb g t ts

/-- A second boundary at real time `B` is detectable by the source's
rollover guard for samples with gaps at most `g`: its wrapped position is
not inside the guard's blind window just below the constant 1001, and not
within `g` of the 2^32 wrap point. -/
def boundaryOKb (g B : Nat) : Bool :=
  (decide (1001 ≤ B % M) || decide (B % M + g ≤ 1001)) && decide (B % M + g + 1 ≤ M)

/-- Last element of a list, with a default for the empty list. -/
def lastD : Nat → List Nat → Nat
  | d, [] => d
  | _, t :: ts => lastD t ts

/-- Function `read_temp()` (lines 164-185), restricted to its decision content:
the exponential smoothing applied to the two freshly converted
temperatures.  `Tlast`/`T2last` are the previous filtered values (0 is
the uninitialized sentinel, per `if ( Tlast != 0)`), `tin`/`t2in` the
newly converted raw values.  Returns the new `(T, T2)`. -/
def read_temp (Tlast T2last tin t2in : ℚ) : ℚ × ℚ :=
  (if Tlast ≠ 0 then (Tlast * 199 + tin) / 200 else tin,
   if T2last ≠ 0 then (T2last * 99 + t2in) / 100 else t2in)

/-- The complete mutable state of the program at the top of the main duty
loop.  Actuator fields are true when the relay is driven (the source
writes the pin LOW), matching `compressor(1)` etc.  `halted` records
that `errmesg` was entered (it never returns); `errCode` its argument. -/
structure Sys where
  T : ℚ
  T2 : ℚ
  targetCaseTemp : ℚ
  state : Nat
  state_last : Nat
  tb : TB
  st2_timer : Nat
  st3_start : Nat
  st4_timer : Nat
  st5_timer : Nat
  compOn : Bool
  solOn : Bool
  fanOn : Bool
  pumpOn : Bool
  halted : Bool
  errCode : Nat

/-- Function `errmesg(int err)` (lines 317-330): forces fan, compressor and
solenoid off and loops forever; modelled as an absorbing halt.  The pump
pin is not touched. -/
def errmesg (s : Sys) (err : Nat) : Sys :=
  { s with fanOn := false, compOn := false, solOn := false,
           halted := true, errCode := err }

/-- The INTELLI_CASE adaptive update of `targetCaseTemp` (lines 304-308):
`targetCaseTemp = (((targetCaseTemp*3.0)+T2+CASE_TEMP_MARGIN)/4.0); if
(targetCaseTemp > CASE_TEMP_ROOF) targetCaseTemp = CASE_TEMP_ROOF;`. -/
def intelliUpdate (tc T2 : ℚ) : ℚ :=
  if (tc * 3 + T2 + CASE_TEMP_MARGIN) / 4 > CASE_TEMP_ROOF then CASE_TEMP_ROOF
  else (tc * 3 + T2 + CASE_TEMP_MARGIN) / 4

/-- Function `do_state_1()` (lines 213-226), the Idle state.  Returns the updated
state record, the value left in `state_new` (0 if untouched; the loop
resets `state_new` to 0 just before dispatch), and the C return value. -/
def do_state_1 (s : Sys) : Sys × Nat × Int :=
  ({ s with fanOn := false, compOn := false, solOn := false },
   if s.T > targetTemp + hysteresis then 2
   else if s.T2 > s.targetCaseTemp then 5
   else 0,
   0)

/-- Function `do_state_2()` (lines 232-245), the Starting state.  The timer
re-arm `if (state_last != 2) st2_timer=seconds+3` is written as an
unconditional store of the conditional value, which is the same map. -/
def do_state_2 (s : Sys) : Sys × Nat × Int :=
  (fun tmr =>
    ({ s with fanOn := false, compOn := true, solOn := true, st2_timer := tmr },
     if s.tb.seconds = tmr then 3 else 0,
     0))
  (if s.state_last ≠ 2 then (s.tb.seconds + 3) % M else s.st2_timer)

/-- Function `do_state_3()` (lines 250-263), the Cooling state.  As in
`do_state_2`, the conditional re-arm of `st3_start` is written as an
unconditional store of the conditional value. -/
def do_state_3 (s : Sys) : Sys × Nat × Int :=
  (fun t0 =>
    ({ s with fanOn := true, compOn := true, solOn := false, st3_start := t0 },
     if s.T ≤ targetTemp ∧ u32sub s.tb.seconds t0 > 5 then 4 else 0,
     0))
  (if s.state_last ≠ 3 then s.tb.seconds else s.st3_start)

/-- Function `do_state_4()` (lines 268-287), the Holding state.  The three exit
checks are successive assignments to `state_new`, so a later one
overwrites an earlier one. -/
def do_state_4 (s : Sys) : Sys × Nat × Int :=
  (fun tmr =>
    ({ s with fanOn := true, compOn := true, solOn := true, st4_timer := tmr },
     (if s.T < targetTemp - hysteresis then 5
      else if s.T > targetTemp + 2/10 ∧ u32sub tmr s.tb.seconds < HOLD_TIME - 5 then 3
      else if s.tb.seconds = tmr then 5
      else 0),
     0))
  (if s.state_last ≠ 4 then (s.tb.seconds + HOLD_TIME) % M else s.st4_timer)

/-- Function `do_state_5()` (lines 292-315), the Cooldown state.  The
INTELLI_CASE update runs inside the `seconds == st5_timer` branch; the
bail-out check `T > targetTemp+hysteresis` runs afterwards and can
overwrite `state_new`. -/
def do_state_5 (s : Sys) : Sys × Nat × Int :=
  (fun tmr =>
    ({ s with fanOn := true, compOn := false, solOn := false, st5_timer := tmr,
              targetCaseTemp :=
                if s.tb.seconds = tmr then intelliUpdate s.targetCaseTemp s.T2
                else s.targetCaseTemp },
     (if s.T > targetTemp + hysteresis then 2
      else if s.tb.seconds = tmr then 1
      else 0),
     0))
  (if s.state_last ≠ 5 then (s.tb.seconds + COOLDOWN_TIME) % M else s.st5_timer)

/-- The `state == k` dispatch chain of the loop (lines 396-415), without
the final `else errmesg(99)` branch.  The fallthrough value is never
used: `machineStep` takes the `errmesg(99)` branch in that case. -/
def stateCycle (s : Sys) : Sys × Nat × Int :=
  if s.state = 1 then do_state_1 s
  else if s.state = 2 then do_state_2 s
  else if s.state = 3 then do_state_3 s
  else if s.state = 4 then do_state_4 s
  else if s.state = 5 then do_state_5 s
  else (s, 0, 0)

/-- The state-change application (lines 419-422): `state_last = state;
if (state_new) state = state_new;`. -/
def applyState (s : Sys) (sn : Nat) : Sys :=
  { s with state_last := s.state, state := if sn ≠ 0 then sn else s.state }

/-- One pass through the state machine (lines 394-422): dispatch on the
current state, `errmesg(99)` on an unknown state, `errmesg(11)` on a
nonzero handler return value, otherwise apply the latched state change. -/
def machineStep (s : Sys) : Sys :=
  if s.state = 1 ∨ s.state = 2 ∨ s.state = 3 ∨ s.state = 4 ∨ s.state = 5 then
    if (stateCycle s).2.2 ≠ 0 then errmesg (stateCycle s).1 11
    else applyState (stateCycle s).1 (stateCycle s).2.1
  else errmesg s 99

/-- The per-iteration safeguards (lines 424-430). -/
def safeguard (s : Sys) : Sys :=
  if s.T < T_MIN ∨ s.T > T_MAX then errmesg s 1
  else if s.T2 < T2_MIN ∨ s.T2 > T2_MAX then errmesg s 2
  else s

/-- The state-affecting part of the logging and display block (lines
433-470): on a tick, in Idle, every 10th second the `seconds` counter is
reset to 0. -/
def displayTick (s : Sys) (tick : Bool) : Sys :=
  if tick = true ∧ s.state = 1 ∧ s.tb.seconds % 10 = 0 then
    { s with tb := ⟨s.tb.nextSecondTick, 0⟩ }
  else s

/-- The acquisition prefix of one loop iteration (lines 372-391):
advance the time base from `thisTick = millis()` and refresh both
filtered temperatures.  `nowMs` is the real time in ms; `millis()`
returns it reduced modulo 2^32. -/
def senseUpdate (s : Sys) (nowMs : Nat) (tin t2in : ℚ) : Sys × Bool :=
  ({ s with tb := (timeStep s.tb (nowMs % M)).1,
            T := (read_temp s.T s.T2 tin t2in).1,
            T2 := (read_temp s.T s.T2 tin t2in).2 },
   (timeStep s.tb (nowMs % M)).2)

/-- The rest of one loop iteration after acquisition: state machine,
safeguards, then display housekeeping.  `errmesg` never returns, so a
halt short-circuits the later stages. -/
def machinePhase (p : Sys × Bool) : Sys :=
  if (machineStep p.1).halted = true then machineStep p.1
  else if (safeguard (machineStep p.1)).halted = true then safeguard (machineStep p.1)
  else displayTick (safeguard (machineStep p.1)) p.2

/-- One full iteration of the main duty loop (lines 371-472).  A system
already halted inside `errmesg`'s forever-loop is absorbing. -/
def loopStep (s : Sys) (nowMs : Nat) (tin t2in : ℚ) : Sys :=
  if s.halted = true then s else machinePhase (senseUpdate s nowMs tin t2in)

/-- Iterating the duty loop over a list of per-iteration inputs
`(millis reading, converted primary temp, converted case temp)`. -/
def runLoop (s : Sys) : List (Nat × ℚ × ℚ) → Sys
  | [] => s
  | (n, t, t2) :: rest => runLoop (loopStep s n t t2) rest

/-- The state at the top of the main duty loop, right after line 362
(`state=1`) and the time-base init of lines 365-366: the settling loop
has left filtered temperatures `T0`, `T20`, all actuators have been
written off, every timer still holds its global initial value 0, and
`targetCaseTemp` holds its configured initial value 22.0 (line 58). -/
def sysInit (t0ms : Nat) (T0 T20 : ℚ) : Sys :=
  { T := T0, T2 := T20, targetCaseTemp := 22, state := 1, state_last := 0,
    tb := tbInit (t0ms % M), st2_timer := 0, st3_start := 0, st4_timer := 0,
    st5_timer := 0, compOn := false, solOn := false, fanOn := false,
    pumpOn := false, halted := false, errCode := 0 }

/-- A concrete Holding-state snapshot with its hold timer just expired
and the water slightly above target+0.2, used for claim C4. -/
def s4ce : Sys :=
  { T := 163/10, T2 := 20, targetCaseTemp := 22, state := 4, state_last := 4,
    tb := ⟨5000, 700⟩, st2_timer := 0, st3_start := 0, st4_timer := 700,
    st5_timer := 0, compOn := true, solOn := true, fanOn := true,
    pumpOn := false, halted := false, errCode := 0 }

/-- A concrete Cooldown-state snapshot with its cooldown timer just
expired and the water above target+hysteresis, used for claim C5. -/
def s5ce : Sys :=
  { T := 17, T2 := 24, targetCaseTemp := 22, state := 5, state_last := 5,
    tb := ⟨5000, 100⟩, st2_timer := 0, st3_start := 0, st4_timer := 0,
    st5_timer := 100, compOn := false, solOn := false, fanOn := true,
    pumpOn := false, halted := false, errCode := 0 }

/-- A concrete Starting-state snapshot used for claim C9. -/
def s2ce : Sys :=
  { T := 17, T2 := 23, targetCaseTemp := 22, state := 2, state_last := 2,
    tb := ⟨5000, 100⟩, st2_timer := 300, st3_start := 0, st4_timer := 0,
    st5_timer := 0, compOn := false, solOn := false, fanOn := false,
    pumpOn := false, halted := false, errCode := 0 }

/-- The time-base update, expressed on real (unwrapped) times: when the
boundary `B` is detectable and the invariant `tlast ≤ B ≤ tlast + 1000`
holds, the source's wrapped comparison ticks exactly when the real time
passes the real boundary. -/
theorem timeStep_correct (g B tlast t s : Nat) (hg1 : 1 ≤ g) (hg2 : g ≤ 1000)
    (h1 : tlast ≤ B) (h2 : B ≤ tlast + 1000)
    (ht1 : tlast < t) (ht2 : t ≤ tlast + g)
    (hB1 : 1001 ≤ B % M ∨ B % M + g ≤ 1001)
    (hB2 : B % M + g + 1 ≤ M) :
    timeStep ⟨B % M, s⟩ (t % M) =
      if B < t then (⟨(B + SECOND) % M, (s + 1) % M⟩, true) else (⟨B % M, s⟩, false) := by
  unfold timeStep SECOND M
  simp only [M] at hB1 hB2
  dsimp only
  split_ifs with hsup hgt hbt hbt' hbt'' <;>
    first
      | rfl
      | (exfalso; omega)
      | (simp only [Prod.mk.injEq, TB.mk.injEq, and_true]; omega)

/-- The ghost tick counter moves forward by at most one per sample. -/
theorem ghostRun_bounds (B0 : Nat) :
    ∀ (ts : List Nat) (j : Nat), j ≤ ghostRun B0 j ts ∧ ghostRun B0 j ts ≤ j + ts.length := by
  intro ts
  induction ts with
  | nil => intro j; simp [ghostRun]
  | cons t ts ih =>
      intro j
      simp only [ghostRun, List.length_cons]
      by_cases h : B0 + 1000 * j < t
      · rw [if_pos h]
        rcases ih (j + 1) with ⟨h1, h2⟩
        omega
      · rw [if_neg h]
        rcases ih j with ⟨h1, h2⟩
        omega

/-- Main time-base simulation lemma: over any sample list with bounded
gaps whose boundaries are all detectable, the wrapped-arithmetic time
base agrees with the ghost tick counter on real times, and the final
boundary bracket `last ≤ B_final < last + 1000` holds. -/
theorem runTB_ghost (g B0 : Nat) (hg1 : 1 ≤ g) (hg2 : g ≤ 1000) :
    ∀ (ts : List Nat) (tlast j s : Nat),
      gapsOKb g tlast ts = true →
      (∀ k, j ≤ k → k ≤ j + ts.length → boundaryOKb g (B0 + 1000 * k) = true) →
      tlast ≤ B0 + 1000 * j →
      B0 + 1000 * j ≤ tlast + 1000 →
      s < M →
      runTB ⟨(B0 + 1000 * j) % M, s⟩ (ts.map (fun x => x % M)) =
          ⟨(B0 + 1000 * ghostRun B0 j ts) % M, (s + (ghostRun B0 j ts - j)) % M⟩ ∧
        lastD tlast ts ≤ B0 + 1000 * ghostRun B0 j ts ∧
        (ts = [] ∨ B0 + 1000 * ghostRun B0 j ts < lastD tlast ts + 1000) := by
  intro ts
  induction ts with
  | nil =>
      intro tlast j s _ _ hi1 hi2 hs
      refine ⟨?_, ?_, Or.inl rfl⟩
      · simp only [List.map_nil, runTB, ghostRun]
        have : (s + (j - j)) % M = s := by
          simp only [M] at hs ⊢; omega
        rw [this]
      · simpa [ghostRun, lastD] using hi1
  | cons t ts ih =>
      intro tlast j s hgaps hb hi1 hi2 hs
      have hga : (tlast < t ∧ t ≤ tlast + g) ∧ gapsOKb g t ts = true := by
        simpa [gapsOKb, Bool.and_eq_true, decide_eq_true_eq] using hgaps
      obtain ⟨⟨ht1, ht2⟩, hgrest⟩ := hga
      have hbj0 := hb j (le_refl j) (by simp)
      have hbj : (1001 ≤ (B0 + 1000 * j) % M ∨ (B0 + 1000 * j) % M + g ≤ 1001) ∧
          (B0 + 1000 * j) % M + g + 1 ≤ M := by
        simpa [boundaryOKb, Bool.and_eq_true, Bool.or_eq_true, decide_eq_true_eq] using hbj0
      have hstep := timeStep_correct g (B0 + 1000 * j) tlast t s hg1 hg2 hi1 hi2 ht1 ht2
        hbj.1 hbj.2
      simp only [List.map_cons, runTB, hstep]
      by_cases hct : B0 + 1000 * j < t
      · rw [if_pos hct]
        have he : B0 + 1000 * j + SECOND = B0 + 1000 * (j + 1) := by
          simp only [SECOND]; ring
        have hgr : ghostRun B0 j (t :: ts) = ghostRun B0 (j + 1) ts := by
          simp only [ghostRun, if_pos hct]
        have hsM : (s + 1) % M < M := by
          simp only [M]; omega
        obtain ⟨e1, e2, e3⟩ := ih t (j + 1) ((s + 1) % M) hgrest
          (fun k hk1 hk2 => hb k (by omega) (by simp only [List.length_cons]; omega))
          (by omega) (by omega) hsM
        have hjf := (ghostRun_bounds B0 ts (j + 1)).1
        refine ⟨?_, ?_, ?_⟩
        · dsimp only
          rw [he, hgr, e1]
          have : ((s + 1) % M + (ghostRun B0 (j + 1) ts - (j + 1))) % M =
              (s + (ghostRun B0 (j + 1) ts - j)) % M := by
            simp only [M] at hs ⊢; omega
          rw [this]
        · rw [lastD, hgr]
          exact e2
        · right
          rcases e3 with h | h
          · subst h
            have hg2' : ghostRun B0 j [t] = j + 1 := by
              simp [ghostRun, hct]
            have hl2' : lastD tlast [t] = t := by
              simp [lastD]
            rw [hg2', hl2']
            omega
          · rw [lastD, hgr]
            exact h
      · rw [if_neg hct]
        have hgr : ghostRun B0 j (t :: ts) = ghostRun B0 j ts := by
          simp only [ghostRun, if_neg hct]
        obtain ⟨e1, e2, e3⟩ := ih t j s hgrest
          (fun k hk1 hk2 => hb k (by omega) (by simp only [List.length_cons]; omega))
          (by omega) (by omega) hs
        refine ⟨?_, ?_, ?_⟩
        · dsimp only
          rw [hgr, e1]
        · rw [lastD, hgr]
          exact e2
        · right
          rcases e3 with h | h
          · subst h
            have hg2' : ghostRun B0 j [t] = j := by
              simp [ghostRun, hct]
            have hl2' : lastD tlast [t] = t := by
              simp [lastD]
            rw [hg2', hl2']
            omega
          · rw [lastD, hgr]
            exact h

/-- Every state handler returns the C value 0, so the `errmesg(11)`
branch is dead. -/
theorem stateCycle_rv (s : Sys) : (stateCycle s).2.2 = 0 := by
  unfold stateCycle do_state_1 do_state_2 do_state_3 do_state_4 do_state_5
  dsimp only
  split_ifs <;> rfl

/-- State handlers touch only actuators, timers and the case target. -/
theorem stateCycle_frame (s : Sys) :
    (stateCycle s).1.T = s.T ∧ (stateCycle s).1.T2 = s.T2 ∧
    (stateCycle s).1.pumpOn = s.pumpOn ∧ (stateCycle s).1.state = s.state ∧
    (stateCycle s).1.state_last = s.state_last ∧ (stateCycle s).1.tb = s.tb ∧
    (stateCycle s).1.halted = s.halted ∧ (stateCycle s).1.errCode = s.errCode := by
  unfold stateCycle do_state_1 do_state_2 do_state_3 do_state_4 do_state_5
  dsimp only
  split_ifs <;> exact ⟨rfl, rfl, rfl, rfl, rfl, rfl, rfl, rfl⟩

/-- Every state handler leaves `state_new` at 0 or requests a state in
1..5. -/
theorem stateCycle_sn (s : Sys) :
    (stateCycle s).2.1 = 0 ∨ (stateCycle s).2.1 = 1 ∨ (stateCycle s).2.1 = 2 ∨
    (stateCycle s).2.1 = 3 ∨ (stateCycle s).2.1 = 4 ∨ (stateCycle s).2.1 = 5 := by
  unfold stateCycle do_state_1 do_state_2 do_state_3 do_state_4 do_state_5
  dsimp only
  split_ifs <;> simp

/-- The case target is either untouched or rewritten by the adaptive
update applied to the current values. -/
theorem stateCycle_tc (s : Sys) :
    (stateCycle s).1.targetCaseTemp = s.targetCaseTemp ∨
    (stateCycle s).1.targetCaseTemp = intelliUpdate s.targetCaseTemp s.T2 := by
  unfold stateCycle do_state_1 do_state_2 do_state_3 do_state_4 do_state_5
  dsimp only
  split_ifs <;> simp

/-- On an unknown state the dispatch chain falls through untouched. -/
theorem stateCycle_unknown (s : Sys)
    (h : ¬(s.state = 1 ∨ s.state = 2 ∨ s.state = 3 ∨ s.state = 4 ∨ s.state = 5)) :
    stateCycle s = (s, 0, 0) := by
  unfold stateCycle
  push_neg at h
  obtain ⟨h1, h2, h3, h4, h5⟩ := h
  rw [if_neg h1, if_neg h2, if_neg h3, if_neg h4, if_neg h5]

/-- The clamp in the adaptive update caps the result at the roof. -/
theorem intelliUpdate_le (tc t2 : ℚ) : intelliUpdate tc t2 ≤ CASE_TEMP_ROOF := by
  unfold intelliUpdate
  split_ifs with h
  · exact le_refl _
  · exact le_of_not_lt h

/-- On a known state, the machine step is the handler followed by the
state-change application (the `errmesg(11)` branch is dead since every
handler returns 0). -/
theorem machineStep_known (s : Sys)
    (hk : s.state = 1 ∨ s.state = 2 ∨ s.state = 3 ∨ s.state = 4 ∨ s.state = 5) :
    machineStep s = applyState (stateCycle s).1 (stateCycle s).2.1 := by
  unfold machineStep
  rw [if_pos hk, if_neg (by simp [stateCycle_rv])]

/-- On an unknown state, the machine step is the code-99 fatal halt. -/
theorem machineStep_unknown (s : Sys)
    (hk : ¬(s.state = 1 ∨ s.state = 2 ∨ s.state = 3 ∨ s.state = 4 ∨ s.state = 5)) :
    machineStep s = errmesg s 99 := by
  unfold machineStep
  rw [if_neg hk]

/-- The safeguards either pass the state through or halt with code 1
or 2. -/
theorem safeguard_cases (s : Sys) :
    safeguard s = s ∨ safeguard s = errmesg s 1 ∨ safeguard s = errmesg s 2 := by
  unfold safeguard
  split_ifs <;> simp

/-- The display block either leaves the state alone or only resets the
`seconds` counter. -/
theorem displayTick_cases (s : Sys) (b : Bool) :
    displayTick s b = s ∨ displayTick s b = { s with tb := ⟨s.tb.nextSecondTick, 0⟩ } := by
  unfold displayTick
  split_ifs <;> simp

/-- Exhaustive shape of one non-halted loop iteration: the applied state
change possibly followed by the seconds reset, a safety halt on top of
the applied state change, or the unknown-state halt. -/
theorem loopStep_cases (s : Sys) (n : Nat) (tin t2in : ℚ) (hh : s.halted = false) :
    loopStep s n tin t2in =
        applyState (stateCycle (senseUpdate s n tin t2in).1).1
          (stateCycle (senseUpdate s n tin t2in).1).2.1 ∨
    loopStep s n tin t2in =
        { applyState (stateCycle (senseUpdate s n tin t2in).1).1
            (stateCycle (senseUpdate s n tin t2in).1).2.1 with
          tb := ⟨(applyState (stateCycle (senseUpdate s n tin t2in).1).1
            (stateCycle (senseUpdate s n tin t2in).1).2.1).tb.nextSecondTick, 0⟩ } ∨
    loopStep s n tin t2in =
        errmesg (applyState (stateCycle (senseUpdate s n tin t2in).1).1
          (stateCycle (senseUpdate s n tin t2in).1).2.1) 1 ∨
    loopStep s n tin t2in =
        errmesg (applyState (stateCycle (senseUpdate s n tin t2in).1).1
          (stateCycle (senseUpdate s n tin t2in).1).2.1) 2 ∨
    loopStep s n tin t2in = errmesg (senseUpdate s n tin t2in).1 99 ∧
      ¬((senseUpdate s n tin t2in).1.state = 1 ∨ (senseUpdate s n tin t2in).1.state = 2 ∨
        (senseUpdate s n tin t2in).1.state = 3 ∨ (senseUpdate s n tin t2in).1.state = 4 ∨
        (senseUpdate s n tin t2in).1.state = 5) := by
  unfold loopStep
  simp only [hh, Bool.false_eq_true, if_false]
  unfold machinePhase
  by_cases hk : (senseUpdate s n tin t2in).1.state = 1 ∨
      (senseUpdate s n tin t2in).1.state = 2 ∨ (senseUpdate s n tin t2in).1.state = 3 ∨
      (senseUpdate s n tin t2in).1.state = 4 ∨ (senseUpdate s n tin t2in).1.state = 5
  · rw [machineStep_known _ hk]
    have fh := (stateCycle_frame (senseUpdate s n tin t2in).1).2.2.2.2.2.2.1
    have hnh : (applyState (stateCycle (senseUpdate s n tin t2in).1).1
        (stateCycle (senseUpdate s n tin t2in).1).2.1).halted = false := fh.trans hh
    rw [if_neg (by simp [hnh])]
    rcases safeguard_cases (applyState (stateCycle (senseUpdate s n tin t2in).1).1
        (stateCycle (senseUpdate s n tin t2in).1).2.1) with hsg | hsg | hsg
    · rw [hsg, if_neg (by simp [hnh])]
      rcases displayTick_cases (applyState (stateCycle (senseUpdate s n tin t2in).1).1
          (stateCycle (senseUpdate s n tin t2in).1).2.1) (senseUpdate s n tin t2in).2
        with hd | hd <;> rw [hd]
      · exact Or.inl rfl
      · exact Or.inr (Or.inl rfl)
    · rw [hsg, if_pos (show (errmesg (applyState (stateCycle (senseUpdate s n tin t2in).1).1
          (stateCycle (senseUpdate s n tin t2in).1).2.1) 1).halted = true from rfl)]
      exact Or.inr (Or.inr (Or.inl rfl))
    · rw [hsg, if_pos (show (errmesg (applyState (stateCycle (senseUpdate s n tin t2in).1).1
          (stateCycle (senseUpdate s n tin t2in).1).2.1) 2).halted = true from rfl)]
      exact Or.inr (Or.inr (Or.inr (Or.inl rfl)))
  · rw [machineStep_unknown _ hk,
      if_pos (show (errmesg (senseUpdate s n tin t2in).1 99).halted = true from rfl)]
    exact Or.inr (Or.inr (Or.inr (Or.inr ⟨rfl, hk⟩)))

/-- A halted system is absorbing: one more loop iteration is a no-op. -/
theorem loopStep_halted (s : Sys) (n : Nat) (tin t2in : ℚ) (hh : s.halted = true) :
    loopStep s n tin t2in = s := by
  unfold loopStep
  rw [if_pos hh]

/-- C6 (counterexample): the claim's concrete instance is wrong: the
adaptive update at old target 22.0 and secondary temperature 26.0 yields
(3*22+26+2)/4 = 23.5, not the claimed 22.5. -/
theorem c6_case_target_counterexample :
    intelliUpdate 22 26 = 47/2 ∧ ¬(intelliUpdate 22 26 = 45/2) := by
  norm_num [intelliUpdate, CASE_TEMP_MARGIN, CASE_TEMP_ROOF]

/-- C6 (amended): each invocation of the adaptive case-target controller
sets the new target to min((3*old + secondary + 2)/4, 30); in particular,
with old target 22.0 and secondary temperature 26.0 the new target equals
23.5 (not 22.5 as claimed). -/
theorem c6_case_target_formula :
    (∀ tc t2 : ℚ, intelliUpdate tc t2 = min ((3 * tc + t2 + 2) / 4) 30) ∧
    intelliUpdate 22 26 = 47/2 := by
  constructor
  · intro tc t2
    unfold intelliUpdate CASE_TEMP_MARGIN CASE_TEMP_ROOF
    rcases le_or_lt ((tc * 3 + t2 + 2) / 4) 30 with h | h
    · rw [if_neg (not_lt.mpr h), min_eq_left (by linarith)]
      ring
    · rw [if_pos h, min_eq_right (by linarith)]
  · norm_num [intelliUpdate, CASE_TEMP_MARGIN, CASE_TEMP_ROOF]

/-- C7: for every execution history starting at the initial
configuration, the case-temperature target never exceeds 30: the initial
value 22 satisfies the bound and every adaptive update is clamped. -/
theorem c7_case_target_bound (t0 : Nat) (T0 T20 : ℚ) (inputs : List (Nat × ℚ × ℚ)) :
    (runLoop (sysInit t0 T0 T20) inputs).targetCaseTemp ≤ 30 := by
  have step : ∀ (s : Sys) (n : Nat) (t t2 : ℚ), s.targetCaseTemp ≤ 30 →
      (loopStep s n t t2).targetCaseTemp ≤ 30 := by
    intro s n t t2 hs
    by_cases hh : s.halted = true
    · rw [loopStep_halted s n t t2 hh]; exact hs
    · have hh' : s.halted = false := by revert hh; cases s.halted <;> simp
      have htc : (stateCycle (senseUpdate s n t t2).1).1.targetCaseTemp ≤ 30 := by
        rcases stateCycle_tc (senseUpdate s n t t2).1 with h | h
        · rw [h]; exact hs
        · rw [h]; exact intelliUpdate_le _ _
      rcases loopStep_cases s n t t2 hh' with h | h | h | h | h
      · rw [h]; exact htc
      · rw [h]; exact htc
      · rw [h]; exact htc
      · rw [h]; exact htc
      · rw [h.1]; exact hs
  suffices h : ∀ (l : List (Nat × ℚ × ℚ)) (s : Sys), s.targetCaseTemp ≤ 30 →
      (runLoop s l).targetCaseTemp ≤ 30 by
    exact h inputs _ (by norm_num [sysInit])
  intro l
  induction l with
  | nil => intro s hs; exact hs
  | cons p rest ih =>
      intro s hs
      rcases p with ⟨n, t, t2⟩
      exact ih _ (step s n t t2 hs)

/-- C9 (amended): the duty loop drives only compressor, solenoid and
fan; the pump output is written once at initialization and never touched
by any loop iteration. -/
theorem c9_pump_frame (s : Sys) (n : Nat) (tin t2in : ℚ) :
    (loopStep s n tin t2in).pumpOn = s.pumpOn := by
  by_cases hh : s.halted = true
  · rw [loopStep_halted s n tin t2in hh]
  · have hh' : s.halted = false := by revert hh; cases s.halted <;> simp
    have fp := (stateCycle_frame (senseUpdate s n tin t2in).1).2.2.1
    rcases loopStep_cases s n tin t2in hh' with h | h | h | h | h
    · rw [h]; exact fp
    · rw [h]; exact fp
    · rw [h]; exact fp
    · rw [h]; exact fp
    · rw [h.1]; rfl

/-- C10: from the moment the main duty loop begins in Idle, the active
state always stays in {1,2,3,4,5} (every handler requests only states in
1..5, with 0 meaning no change), so the unknown-state fatal branch with
diagnostic code 99 is unreachable. -/
theorem c10_state_range (t0 : Nat) (T0 T20 : ℚ) (inputs : List (Nat × ℚ × ℚ)) :
    ((runLoop (sysInit t0 T0 T20) inputs).state = 1 ∨
     (runLoop (sysInit t0 T0 T20) inputs).state = 2 ∨
     (runLoop (sysInit t0 T0 T20) inputs).state = 3 ∨
     (runLoop (sysInit t0 T0 T20) inputs).state = 4 ∨
     (runLoop (sysInit t0 T0 T20) inputs).state = 5) ∧
    (runLoop (sysInit t0 T0 T20) inputs).errCode ≠ 99 := by
  have step : ∀ (s : Sys) (n : Nat) (t t2 : ℚ),
      (s.state = 1 ∨ s.state = 2 ∨ s.state = 3 ∨ s.state = 4 ∨ s.state = 5) →
      s.errCode ≠ 99 →
      ((loopStep s n t t2).state = 1 ∨ (loopStep s n t t2).state = 2 ∨
       (loopStep s n t t2).state = 3 ∨ (loopStep s n t t2).state = 4 ∨
       (loopStep s n t t2).state = 5) ∧ (loopStep s n t t2).errCode ≠ 99 := by
    intro s n t t2 hst he
    by_cases hh : s.halted = true
    · rw [loopStep_halted s n t t2 hh]; exact ⟨hst, he⟩
    · have hh' : s.halted = false := by revert hh; cases s.halted <;> simp
      have fst := (stateCycle_frame (senseUpdate s n t t2).1).2.2.2.1
      have fe := (stateCycle_frame (senseUpdate s n t t2).1).2.2.2.2.2.2.2
      have hsn := stateCycle_sn (senseUpdate s n t t2).1
      have key : (applyState (stateCycle (senseUpdate s n t t2).1).1
          (stateCycle (senseUpdate s n t t2).1).2.1).state = 1 ∨
          (applyState (stateCycle (senseUpdate s n t t2).1).1
            (stateCycle (senseUpdate s n t t2).1).2.1).state = 2 ∨
          (applyState (stateCycle (senseUpdate s n t t2).1).1
            (stateCycle (senseUpdate s n t t2).1).2.1).state = 3 ∨
          (applyState (stateCycle (senseUpdate s n t t2).1).1
            (stateCycle (senseUpdate s n t t2).1).2.1).state = 4 ∨
          (applyState (stateCycle (senseUpdate s n t t2).1).1
            (stateCycle (senseUpdate s n t t2).1).2.1).state = 5 := by
        dsimp only [applyState]
        rcases hsn with h0 | h0 | h0 | h0 | h0 | h0 <;> rw [h0]
        · rw [if_neg (by norm_num)]
          rw [fst]
          exact hst
        · rw [if_pos (by norm_num)]; exact Or.inl rfl
        · rw [if_pos (by norm_num)]; exact Or.inr (Or.inl rfl)
        · rw [if_pos (by norm_num)]; exact Or.inr (Or.inr (Or.inl rfl))
        · rw [if_pos (by norm_num)]; exact Or.inr (Or.inr (Or.inr (Or.inl rfl)))
        · rw [if_pos (by norm_num)]; exact Or.inr (Or.inr (Or.inr (Or.inr rfl)))
      have keyE : (applyState (stateCycle (senseUpdate s n t t2).1).1
          (stateCycle (senseUpdate s n t t2).1).2.1).errCode ≠ 99 := by
        dsimp only [applyState]
        rw [fe]
        exact he
      rcases loopStep_cases s n t t2 hh' with h | h | h | h | h
      · rw [h]; exact ⟨key, keyE⟩
      · rw [h]; exact ⟨key, keyE⟩
      · rw [h]; exact ⟨key, by simp [errmesg]⟩
      · rw [h]; exact ⟨key, by simp [errmesg]⟩
      · exact absurd hst h.2
  suffices hgen : ∀ (l : List (Nat × ℚ × ℚ)) (s : Sys),
      (s.state = 1 ∨ s.state = 2 ∨ s.state = 3 ∨ s.state = 4 ∨ s.state = 5) →
      s.errCode ≠ 99 →
      ((runLoop s l).state = 1 ∨ (runLoop s l).state = 2 ∨ (runLoop s l).state = 3 ∨
       (runLoop s l).state = 4 ∨ (runLoop s l).state = 5) ∧ (runLoop s l).errCode ≠ 99 by
    exact hgen inputs _ (Or.inl rfl) (by simp [sysInit])
  intro l
  induction l with
  | nil => intro s h1 h2; exact ⟨h1, h2⟩
  | cons p rest ih =>
      intro s h1 h2
      rcases p with ⟨n, t, t2⟩
      obtain ⟨k1, k2⟩ := step s n t t2 h1 h2
      exact ih _ k1 k2

/-- C8 (counterexample): the claim fails on two concrete samples after
the first: (i) when the newly converted value equals the previous
filtered value (here both 5), the new filtered value equals both and is
not strictly between them; (ii) when the previous filtered value is the
0 sentinel, the filter re-seeds and the new value equals the converted
value, again not strictly between. -/
theorem c8_filter_between_counterexample :
    ((read_temp 5 5 5 5).1 = 5 ∧
      ¬(min (5:ℚ) 5 < (read_temp 5 5 5 5).1 ∧ (read_temp 5 5 5 5).1 < max (5:ℚ) 5)) ∧
    ((read_temp 0 0 7 7).1 = 7 ∧
      ¬(min (0:ℚ) 7 < (read_temp 0 0 7 7).1 ∧ (read_temp 0 0 7 7).1 < max (0:ℚ) 7)) := by
  norm_num [read_temp]

/-- C8 (amended): for every sample after the first whose previous
filtered value is nonzero (the filter's uninitialized sentinel) and
differs from the newly converted value, the new filtered value lies
strictly between the previous filtered value and the converted value,
under the weight ratios 199:1 (primary) and 99:1 (secondary). -/
theorem c8_filter_between (a a2 b b2 : ℚ) (ha : a ≠ 0) (hab : a ≠ b)
    (ha2 : a2 ≠ 0) (hab2 : a2 ≠ b2) :
    (min a b < (read_temp a a2 b b2).1 ∧ (read_temp a a2 b b2).1 < max a b) ∧
    (min a2 b2 < (read_temp a a2 b b2).2 ∧ (read_temp a a2 b b2).2 < max a2 b2) := by
  have h1 : (read_temp a a2 b b2).1 = (a * 199 + b) / 200 := by
    simp [read_temp, ha]
  have h2 : (read_temp a a2 b b2).2 = (a2 * 99 + b2) / 100 := by
    simp [read_temp, ha2]
  rw [h1, h2]
  refine ⟨⟨?_, ?_⟩, ?_, ?_⟩
  · rcases lt_or_gt_of_ne hab with h | h
    · rw [min_eq_left h.le]; linarith
    · rw [min_eq_right h.le]
      linarith
  · rcases lt_or_gt_of_ne hab with h | h
    · rw [max_eq_right h.le]; linarith
    · rw [max_eq_left h.le]
      linarith
  · rcases lt_or_gt_of_ne hab2 with h | h
    · rw [min_eq_left h.le]; linarith
    · rw [min_eq_right h.le]
      linarith
  · rcases lt_or_gt_of_ne hab2 with h | h
    · rw [max_eq_right h.le]; linarith
    · rw [max_eq_left h.le]
      linarith

/-- C8 (witness): the amended claim at concrete inputs 1 (previous) and
2 (converted) for both sensors. -/
theorem c8_filter_between_witness :
    (min (1:ℚ) 2 < (read_temp 1 1 2 2).1 ∧ (read_temp 1 1 2 2).1 < max (1:ℚ) 2) ∧
    (min (1:ℚ) 2 < (read_temp 1 1 2 2).2 ∧ (read_temp 1 1 2 2).2 < max (1:ℚ) 2) :=
  c8_filter_between 1 1 2 2 (by norm_num) (by norm_num) (by norm_num) (by norm_num)

/-- The next active state of a non-halted iteration is the handler's
nonzero request, else unchanged (`errmesg` never writes `state`). -/
theorem loopStep_state_char (s : Sys) (n : Nat) (tin t2in : ℚ) (hh : s.halted = false) :
    (loopStep s n tin t2in).state =
      if (stateCycle (senseUpdate s n tin t2in).1).2.1 ≠ 0
      then (stateCycle (senseUpdate s n tin t2in).1).2.1 else s.state := by
  have fst := (stateCycle_frame (senseUpdate s n tin t2in).1).2.2.2.1
  rcases loopStep_cases s n tin t2in hh with h | h | h | h | h
  · rw [h]
    dsimp only [applyState]
    rw [fst]
    rfl
  · rw [h]
    dsimp only [applyState]
    rw [fst]
    rfl
  · rw [h]
    dsimp only [errmesg, applyState]
    rw [fst]
    rfl
  · rw [h]
    dsimp only [errmesg, applyState]
    rw [fst]
    rfl
  · rw [h.1, stateCycle_unknown _ h.2]
    dsimp only [errmesg]
    rw [if_neg (by norm_num)]
    rfl

/-- The case target after a non-halted iteration is whatever the handler
left in it (`errmesg` and the display block never write it). -/
theorem loopStep_tc_char (s : Sys) (n : Nat) (tin t2in : ℚ) (hh : s.halted = false) :
    (loopStep s n tin t2in).targetCaseTemp =
      (stateCycle (senseUpdate s n tin t2in).1).1.targetCaseTemp := by
  rcases loopStep_cases s n tin t2in hh with h | h | h | h | h
  · rw [h]
    rfl
  · rw [h]
    rfl
  · rw [h]
    rfl
  · rw [h]
    rfl
  · rw [h.1, stateCycle_unknown _ h.2]
    rfl

/-- C3 (amended): in the Idle state, when both the primary condition
(primary_temp > target + hysteresis) and the secondary condition
(secondary_temp > target_case_temp) hold in the same evaluation, the
PRIMARY check takes priority — its assignment to `state_new` comes
second in the source and overwrites — so the requested next state is
Starting (2), not Cooldown (5). -/
theorem c3_idle_priority (s : Sys) (n : Nat) (tin t2in : ℚ)
    (hh : s.halted = false) (hs : s.state = 1)
    (h1 : (read_temp s.T s.T2 tin t2in).1 > targetTemp + hysteresis)
    (h2 : (read_temp s.T s.T2 tin t2in).2 > s.targetCaseTemp) :
    (loopStep s n tin t2in).state = 2 := by
  have hsc : stateCycle (senseUpdate s n tin t2in).1 =
      do_state_1 (senseUpdate s n tin t2in).1 := by
    unfold stateCycle
    rw [if_pos (show (senseUpdate s n tin t2in).1.state = 1 from hs)]
  have hsn : (stateCycle (senseUpdate s n tin t2in).1).2.1 =
      (if (read_temp s.T s.T2 tin t2in).1 > targetTemp + hysteresis then 2
       else if (read_temp s.T s.T2 tin t2in).2 > s.targetCaseTemp then 5 else 0) := by
    rw [hsc]
    rfl
  rw [loopStep_state_char s n tin t2in hh, hsn, if_pos h1]
  norm_num

/-- C3 (witness): the amended claim at a concrete Idle snapshot with
filtered temperatures 17 (> 16.8) and 23 (> 22), both conditions firing. -/
theorem c3_idle_priority_witness :
    (loopStep (sysInit 4000 17 23) 4001 17 23).state = 2 := by
  apply c3_idle_priority (sysInit 4000 17 23) 4001 17 23 rfl rfl
  · norm_num [sysInit, read_temp, targetTemp, hysteresis]
  · norm_num [sysInit, read_temp]

/-- C3 (counterexample): at a concrete Idle snapshot where both exit
conditions hold (filtered primary 17 > 16.8 and filtered secondary 23 >
case target 22), the requested next state is Starting (2), not the
claimed Cooldown (5). -/
theorem c3_idle_priority_counterexample :
    (sysInit 4000 17 23).state = 1 ∧
    (read_temp (sysInit 4000 17 23).T (sysInit 4000 17 23).T2 17 23).1 >
      targetTemp + hysteresis ∧
    (read_temp (sysInit 4000 17 23).T (sysInit 4000 17 23).T2 17 23).2 >
      (sysInit 4000 17 23).targetCaseTemp ∧
    (loopStep (sysInit 4000 17 23) 4001 17 23).state ≠ 5 := by
  have hsc : stateCycle (senseUpdate (sysInit 4000 17 23) 4001 17 23).1 =
      do_state_1 (senseUpdate (sysInit 4000 17 23) 4001 17 23).1 := by
    unfold stateCycle
    rw [if_pos (show (senseUpdate (sysInit 4000 17 23) 4001 17 23).1.state = 1 from rfl)]
  have hsn : (stateCycle (senseUpdate (sysInit 4000 17 23) 4001 17 23).1).2.1 =
      (if (read_temp 17 23 17 23).1 > targetTemp + hysteresis then 2
       else if (read_temp 17 23 17 23).2 > (22:ℚ) then 5 else 0) := by
    rw [hsc]
    rfl
  refine ⟨rfl, ?_, ?_, ?_⟩
  · norm_num [sysInit, read_temp, targetTemp, hysteresis]
  · norm_num [sysInit, read_temp]
  · rw [loopStep_state_char _ _ _ _ rfl, hsn,
      if_pos (show (read_temp 17 23 17 23).1 > targetTemp + hysteresis from by
        norm_num [read_temp, targetTemp, hysteresis])]
    norm_num

/-- C4 (amended): in Holding, the three exit checks are successive
assignments, so the later one overwrites: on an iteration where both the
hold-timer expiry (a) and the early-exit predicate (b) hold, the
requested next state is Cooling (3), not Cooldown (5); the effective
priority is (c) over (b) over (a). -/
theorem c4_holding_priority (s : Sys) (n : Nat) (tin t2in : ℚ)
    (hh : s.halted = false) (hs : s.state = 4) (hl : s.state_last = 4)
    (ha : (timeStep s.tb (n % M)).1.seconds = s.st4_timer)
    (hb : (read_temp s.T s.T2 tin t2in).1 > targetTemp + 2/10) :
    (loopStep s n tin t2in).state = 3 := by
  have hst : (senseUpdate s n tin t2in).1.state = 4 := hs
  have hsc : stateCycle (senseUpdate s n tin t2in).1 =
      do_state_4 (senseUpdate s n tin t2in).1 := by
    unfold stateCycle
    rw [if_neg (by rw [hst]; norm_num), if_neg (by rw [hst]; norm_num),
      if_neg (by rw [hst]; norm_num), if_pos hst]
  have hsn : (stateCycle (senseUpdate s n tin t2in).1).2.1 =
      (if (read_temp s.T s.T2 tin t2in).1 < targetTemp - hysteresis then 5
       else if (read_temp s.T s.T2 tin t2in).1 > targetTemp + 2/10 ∧
           u32sub (if s.state_last ≠ 4 then
               ((timeStep s.tb (n % M)).1.seconds + HOLD_TIME) % M else s.st4_timer)
             (timeStep s.tb (n % M)).1.seconds < HOLD_TIME - 5 then 3
       else if (timeStep s.tb (n % M)).1.seconds =
           (if s.state_last ≠ 4 then
               ((timeStep s.tb (n % M)).1.seconds + HOLD_TIME) % M else s.st4_timer)
           then 5 else 0) := by
    rw [hsc]
    rfl
  have hlneg : ¬(s.state_last ≠ 4) := by rw [hl]; norm_num
  have hcneg : ¬((read_temp s.T s.T2 tin t2in).1 < targetTemp - hysteresis) := by
    simp only [targetTemp, hysteresis] at hb ⊢
    intro hcon
    linarith
  have hu : u32sub s.st4_timer (timeStep s.tb (n % M)).1.seconds < HOLD_TIME - 5 := by
    rw [ha]
    simp only [u32sub, M, HOLD_TIME]
    omega
  rw [loopStep_state_char s n tin t2in hh, hsn, if_neg hlneg, if_neg hcneg,
    if_pos (show (read_temp s.T s.T2 tin t2in).1 > targetTemp + 2/10 ∧
      u32sub s.st4_timer (timeStep s.tb (n % M)).1.seconds < HOLD_TIME - 5 from ⟨hb, hu⟩)]
  norm_num

/-- C4 (witness): the amended claim at a concrete Holding snapshot whose
hold timer has just expired (seconds = st4_timer = 700) while the water
is at 16.3 > 16.2: the next state is Cooling. -/
theorem c4_holding_priority_witness :
    (loopStep s4ce 4000 (163/10) 20).state = 3 := by
  apply c4_holding_priority s4ce 4000 (163/10) 20 rfl rfl rfl
  · decide
  · norm_num [s4ce, read_temp, targetTemp]

/-- C4 (counterexample): at a concrete Holding snapshot where both the
hold-timer expiry (a) and the early-exit predicate (b) hold — seconds
equals the hold timer, the water is 16.3 > target+0.2, and the remaining
hold time 0 is below 595 — the requested next state is Cooling (3), not
the claimed Cooldown (5). -/
theorem c4_holding_priority_counterexample :
    s4ce.state = 4 ∧ s4ce.state_last = 4 ∧
    (timeStep s4ce.tb (4000 % M)).1.seconds = s4ce.st4_timer ∧
    (read_temp s4ce.T s4ce.T2 (163/10) 20).1 > targetTemp + 2/10 ∧
    u32sub s4ce.st4_timer (timeStep s4ce.tb (4000 % M)).1.seconds < HOLD_TIME - 5 ∧
    (loopStep s4ce 4000 (163/10) 20).state ≠ 5 := by
  have hst : (senseUpdate s4ce 4000 (163/10) 20).1.state = 4 := rfl
  have hsc : stateCycle (senseUpdate s4ce 4000 (163/10) 20).1 =
      do_state_4 (senseUpdate s4ce 4000 (163/10) 20).1 := by
    unfold stateCycle
    rw [if_neg (by rw [hst]; norm_num), if_neg (by rw [hst]; norm_num),
      if_neg (by rw [hst]; norm_num), if_pos hst]
  have hsn : (stateCycle (senseUpdate s4ce 4000 (163/10) 20).1).2.1 =
      (if (read_temp (163/10) 20 (163/10) 20).1 < targetTemp - hysteresis then 5
       else if (read_temp (163/10) 20 (163/10) 20).1 > targetTemp + 2/10 ∧
           u32sub (if (4:Nat) ≠ 4 then
               ((timeStep s4ce.tb (4000 % M)).1.seconds + HOLD_TIME) % M else (700:Nat))
             (timeStep s4ce.tb (4000 % M)).1.seconds < HOLD_TIME - 5 then 3
       else if (timeStep s4ce.tb (4000 % M)).1.seconds =
           (if (4:Nat) ≠ 4 then
               ((timeStep s4ce.tb (4000 % M)).1.seconds + HOLD_TIME) % M else (700:Nat))
           then 5 else 0) := by
    rw [hsc]
    rfl
  refine ⟨rfl, rfl, by decide, ?_, by decide, ?_⟩
  · norm_num [s4ce, read_temp, targetTemp]
  · rw [loopStep_state_char _ _ _ _ rfl, hsn]
    rw [if_neg (show ¬((read_temp (163/10) 20 (163/10) 20).1 < targetTemp - hysteresis) from by
      norm_num [read_temp, targetTemp, hysteresis])]
    rw [if_pos (show (read_temp (163/10) 20 (163/10) 20).1 > targetTemp + 2/10 ∧
      u32sub (if (4:Nat) ≠ 4 then ((timeStep s4ce.tb (4000 % M)).1.seconds + HOLD_TIME) % M
        else (700:Nat)) (timeStep s4ce.tb (4000 % M)).1.seconds < HOLD_TIME - 5 from
      ⟨by norm_num [read_temp, targetTemp], by decide⟩)]
    norm_num

/-- C5 (amended): the adaptive case-target update runs exactly on the
iterations where the Cooldown timer fires (the post-tick seconds counter
equals the state-5 timer; never on the entry iteration that re-arms it):
on such an iteration the requested next state is Idle, unless the
bail-out condition primary > target+hysteresis fires in the same
evaluation, in which case the update still runs but the requested next
state is Starting — the update is therefore not confined to
Cooldown-to-Idle transitions. -/
theorem c5_adapt_invocation (s : Sys) (n : Nat) (tin t2in : ℚ)
    (hh : s.halted = false) (hs : s.state = 5) :
    ((loopStep s n tin t2in).targetCaseTemp =
      (if (timeStep s.tb (n % M)).1.seconds =
          (if s.state_last ≠ 5 then ((timeStep s.tb (n % M)).1.seconds + COOLDOWN_TIME) % M
           else s.st5_timer)
       then intelliUpdate s.targetCaseTemp (read_temp s.T s.T2 tin t2in).2
       else s.targetCaseTemp)) ∧
    ((timeStep s.tb (n % M)).1.seconds =
        (if s.state_last ≠ 5 then ((timeStep s.tb (n % M)).1.seconds + COOLDOWN_TIME) % M
         else s.st5_timer) →
      (loopStep s n tin t2in).state =
        (if (read_temp s.T s.T2 tin t2in).1 > targetTemp + hysteresis then 2 else 1)) := by
  have hst : (senseUpdate s n tin t2in).1.state = 5 := hs
  have hsc : stateCycle (senseUpdate s n tin t2in).1 =
      do_state_5 (senseUpdate s n tin t2in).1 := by
    unfold stateCycle
    rw [if_neg (by rw [hst]; norm_num), if_neg (by rw [hst]; norm_num),
      if_neg (by rw [hst]; norm_num), if_neg (by rw [hst]; norm_num), if_pos hst]
  have htc : (stateCycle (senseUpdate s n tin t2in).1).1.targetCaseTemp =
      (if (timeStep s.tb (n % M)).1.seconds =
          (if s.state_last ≠ 5 then ((timeStep s.tb (n % M)).1.seconds + COOLDOWN_TIME) % M
           else s.st5_timer)
       then intelliUpdate s.targetCaseTemp (read_temp s.T s.T2 tin t2in).2
       else s.targetCaseTemp) := by
    rw [hsc]
    rfl
  have hsn : (stateCycle (senseUpdate s n tin t2in).1).2.1 =
      (if (read_temp s.T s.T2 tin t2in).1 > targetTemp + hysteresis then 2
       else if (timeStep s.tb (n % M)).1.seconds =
          (if s.state_last ≠ 5 then ((timeStep s.tb (n % M)).1.seconds + COOLDOWN_TIME) % M
           else s.st5_timer)
       then 1 else 0) := by
    rw [hsc]
    rfl
  constructor
  · rw [loopStep_tc_char s n tin t2in hh, htc]
  · intro hfired
    rw [loopStep_state_char s n tin t2in hh, hsn, if_pos hfired]
    by_cases hT : (read_temp s.T s.T2 tin t2in).1 > targetTemp + hysteresis
    · rw [if_pos hT]
      norm_num
    · rw [if_neg hT]
      norm_num

/-- C5 (witness): the amended claim at the concrete Cooldown snapshot
`s5ce`: timer fired and water warm, so the update runs (22 becomes
(3*22+24+2)/4 = 23) while the requested state is Starting. -/
theorem c5_adapt_invocation_witness :
    (loopStep s5ce 4000 17 24).targetCaseTemp = 23 ∧
    (loopStep s5ce 4000 17 24).state = 2 := by
  obtain ⟨h1, h2⟩ := c5_adapt_invocation s5ce 4000 17 24 rfl rfl
  constructor
  · rw [h1, if_pos (by decide)]
    norm_num [s5ce, read_temp, intelliUpdate, CASE_TEMP_MARGIN, CASE_TEMP_ROOF]
  · rw [h2 (by decide), if_pos (by norm_num [s5ce, read_temp, targetTemp, hysteresis])]

/-- C5 (counterexample): at the concrete Cooldown snapshot `s5ce` the
cooldown timer fires while the water is above target+hysteresis: the
adaptive update runs (target_case_temp changes from 22 to 23) on an
iteration whose resulting state change is to Starting (2), not Idle —
refuting the claim that the update never runs when the resulting state
is not Idle. -/
theorem c5_adapt_invocation_counterexample :
    s5ce.state = 5 ∧ s5ce.targetCaseTemp = 22 ∧
    (loopStep s5ce 4000 17 24).targetCaseTemp = 23 ∧
    (loopStep s5ce 4000 17 24).state = 2 := by
  have hst : (senseUpdate s5ce 4000 17 24).1.state = 5 := rfl
  have hsc : stateCycle (senseUpdate s5ce 4000 17 24).1 =
      do_state_5 (senseUpdate s5ce 4000 17 24).1 := by
    unfold stateCycle
    rw [if_neg (by rw [hst]; norm_num), if_neg (by rw [hst]; norm_num),
      if_neg (by rw [hst]; norm_num), if_neg (by rw [hst]; norm_num), if_pos hst]
  have htc : (stateCycle (senseUpdate s5ce 4000 17 24).1).1.targetCaseTemp =
      (if (timeStep s5ce.tb (4000 % M)).1.seconds =
          (if s5ce.state_last ≠ 5 then
            ((timeStep s5ce.tb (4000 % M)).1.seconds + COOLDOWN_TIME) % M
           else s5ce.st5_timer)
       then intelliUpdate s5ce.targetCaseTemp (read_temp s5ce.T s5ce.T2 17 24).2
       else s5ce.targetCaseTemp) := by
    rw [hsc]
    rfl
  have hsn : (stateCycle (senseUpdate s5ce 4000 17 24).1).2.1 =
      (if (read_temp s5ce.T s5ce.T2 17 24).1 > targetTemp + hysteresis then 2
       else if (timeStep s5ce.tb (4000 % M)).1.seconds =
          (if s5ce.state_last ≠ 5 then
            ((timeStep s5ce.tb (4000 % M)).1.seconds + COOLDOWN_TIME) % M
           else s5ce.st5_timer)
       then 1 else 0) := by
    rw [hsc]
    rfl
  refine ⟨rfl, rfl, ?_, ?_⟩
  · rw [loopStep_tc_char _ _ _ _ rfl, htc, if_pos (by decide)]
    norm_num [s5ce, read_temp, intelliUpdate, CASE_TEMP_MARGIN, CASE_TEMP_ROOF]
  · rw [loopStep_state_char _ _ _ _ rfl, hsn,
      if_pos (show (read_temp s5ce.T s5ce.T2 17 24).1 > targetTemp + hysteresis from by
        norm_num [s5ce, read_temp, targetTemp, hysteresis])]
    norm_num

/-- C2 (counterexample): the claim fails as a universal statement.  With
the time base initialized at millis() = 0 (so nextSecondTick = 1000,
inside the rollover guard's window "< 1001"), the monotonically
increasing sample sequence 1002, 2002, 3002 crosses three full second
boundaries, yet the guard `!(nextSecondTick < 1001 && thisTick > 1001)`
suppresses every tick: elapsed_seconds stays 0 instead of reaching 3,
and no iteration has tick_occurred true. -/
theorem c2_time_base_counterexample :
    gapsOKb 1002 0 [1002, 2002, 3002] = true ∧
    (runTB (tbInit 0) [1002, 2002, 3002]).seconds = 0 ∧
    (lastD 0 [1002, 2002, 3002] - 0 - 1) / 1000 = 3 := by
  refine ⟨by decide, by decide, by decide⟩

/-- C2 (amended): for every strictly increasing sample sequence with
gaps of at most g ≤ 1000 ms, provided no second boundary of the run
falls (modulo 2^32) in the rollover guard's blind window just below 1001
or within g of the wrap point, elapsed_seconds increments by exactly one
per elapsed 1000 ms with no double-count and no skip across the 2^32
wraparound: after the run it equals floor((t_last - t0 - 1)/1000). -/
theorem c2_time_base (g t0 : Nat) (ts : List Nat)
    (hg1 : 1 ≤ g) (hg2 : g ≤ 1000)
    (hgaps : gapsOKb g t0 ts = true)
    (hB : ∀ k, k ≤ ts.length → boundaryOKb g (t0 + SECOND + 1000 * k) = true)
    (hlen : ts.length < M) (hne : ts ≠ []) :
    (runTB (tbInit (t0 % M)) (ts.map (fun x => x % M))).seconds =
      (lastD t0 ts - t0 - 1) / 1000 := by
  simp only [SECOND] at hB
  have hinit : tbInit (t0 % M) = ⟨(t0 + 1000 + 1000 * 0) % M, 0⟩ := by
    simp only [tbInit, SECOND, TB.mk.injEq]
    constructor
    · simp only [M]; omega
    · trivial
  obtain ⟨e1, e2, e3⟩ := runTB_ghost g (t0 + 1000) hg1 hg2 ts t0 0 0 hgaps
    (fun k hk1 hk2 => hB k (by omega)) (by omega) (by omega) (by decide)
  rw [hinit, e1]
  rcases e3 with h | h
  · exact absurd h hne
  · have hjf := ghostRun_bounds (t0 + 1000) ts 0
    dsimp only
    simp only [M] at hlen ⊢
    omega

/-- C2 (witness): the amended claim on a concrete run: init at 5000 ms,
samples at 6000 and 6500 ms; one second boundary (6000) is passed, and
the final elapsed_seconds is 1 = (6500 - 5000 - 1) / 1000. -/
theorem c2_time_base_witness :
    (runTB (tbInit (5000 % M)) (List.map (fun x => x % M) [6000, 6500])).seconds = 1 := by
  have h := c2_time_base 1000 5000 [6000, 6500] (by decide) (by decide) (by decide)
    (by decide) (by decide) (by decide)
  rw [h]
  decide

/-- C1: whenever the per-iteration safety check sees the filtered
primary temperature outside [3, 50] or the filtered secondary (case)
temperature outside [3, 55], the iteration ends in the fatal `errmesg`
halt with compressor, solenoid and fan all forced off; and the halt is
terminal: once halted, every further iteration changes nothing. -/
theorem c1_safety_monitor :
    (∀ (s : Sys) (n : Nat) (tin t2in : ℚ), s.halted = false →
      ((read_temp s.T s.T2 tin t2in).1 < T_MIN ∨ (read_temp s.T s.T2 tin t2in).1 > T_MAX ∨
       (read_temp s.T s.T2 tin t2in).2 < T2_MIN ∨ (read_temp s.T s.T2 tin t2in).2 > T2_MAX) →
      ((loopStep s n tin t2in).halted = true ∧ (loopStep s n tin t2in).compOn = false ∧
       (loopStep s n tin t2in).solOn = false ∧ (loopStep s n tin t2in).fanOn = false)) ∧
    (∀ (s : Sys) (n : Nat) (tin t2in : ℚ), s.halted = true → loopStep s n tin t2in = s) := by
  constructor
  · intro s n tin t2in hh hoob
    unfold loopStep
    simp only [hh, Bool.false_eq_true, if_false]
    unfold machinePhase
    by_cases hk : (senseUpdate s n tin t2in).1.state = 1 ∨
        (senseUpdate s n tin t2in).1.state = 2 ∨ (senseUpdate s n tin t2in).1.state = 3 ∨
        (senseUpdate s n tin t2in).1.state = 4 ∨ (senseUpdate s n tin t2in).1.state = 5
    · rw [machineStep_known _ hk]
      have fh : (applyState (stateCycle (senseUpdate s n tin t2in).1).1
          (stateCycle (senseUpdate s n tin t2in).1).2.1).halted = false :=
        ((stateCycle_frame (senseUpdate s n tin t2in).1).2.2.2.2.2.2.1).trans hh
      have hT : (applyState (stateCycle (senseUpdate s n tin t2in).1).1
          (stateCycle (senseUpdate s n tin t2in).1).2.1).T =
          (read_temp s.T s.T2 tin t2in).1 :=
        (stateCycle_frame (senseUpdate s n tin t2in).1).1
      have hT2 : (applyState (stateCycle (senseUpdate s n tin t2in).1).1
          (stateCycle (senseUpdate s n tin t2in).1).2.1).T2 =
          (read_temp s.T s.T2 tin t2in).2 :=
        (stateCycle_frame (senseUpdate s n tin t2in).1).2.1
      rw [if_neg (by simp [fh])]
      unfold safeguard
      by_cases hc1 : (applyState (stateCycle (senseUpdate s n tin t2in).1).1
          (stateCycle (senseUpdate s n tin t2in).1).2.1).T < T_MIN ∨
          (applyState (stateCycle (senseUpdate s n tin t2in).1).1
            (stateCycle (senseUpdate s n tin t2in).1).2.1).T > T_MAX
      · rw [if_pos hc1,
          if_pos (show (errmesg (applyState (stateCycle (senseUpdate s n tin t2in).1).1
            (stateCycle (senseUpdate s n tin t2in).1).2.1) 1).halted = true from rfl)]
        exact ⟨rfl, rfl, rfl, rfl⟩
      · have hc2 : (applyState (stateCycle (senseUpdate s n tin t2in).1).1
            (stateCycle (senseUpdate s n tin t2in).1).2.1).T2 < T2_MIN ∨
            (applyState (stateCycle (senseUpdate s n tin t2in).1).1
              (stateCycle (senseUpdate s n tin t2in).1).2.1).T2 > T2_MAX := by
          rw [hT] at hc1
          rw [hT2]
          rcases hoob with h | h | h | h
          · exact absurd (Or.inl h) hc1
          · exact absurd (Or.inr h) hc1
          · exact Or.inl h
          · exact Or.inr h
        rw [if_neg hc1, if_pos hc2,
          if_pos (show (errmesg (applyState (stateCycle (senseUpdate s n tin t2in).1).1
            (stateCycle (senseUpdate s n tin t2in).1).2.1) 2).halted = true from rfl)]
        exact ⟨rfl, rfl, rfl, rfl⟩
    · rw [machineStep_unknown _ hk,
        if_pos (show (errmesg (senseUpdate s n tin t2in).1 99).halted = true from rfl)]
      exact ⟨rfl, rfl, rfl, rfl⟩
  · intro s n tin t2in hh
    exact loopStep_halted s n tin t2in hh

/-- C1 (witness): a fresh filter seeing a primary temperature of 50.1
(above T_MAX = 50) halts with all three driven actuators off; so does
2.9 (below T_MIN = 3); and a halted system is unchanged by a further
iteration. -/
theorem c1_safety_monitor_witness :
    (loopStep (sysInit 0 0 20) 0 (501/10) 20).halted = true ∧
    (loopStep (sysInit 0 0 20) 0 (501/10) 20).compOn = false ∧
    (loopStep (sysInit 0 0 20) 0 (501/10) 20).solOn = false ∧
    (loopStep (sysInit 0 0 20) 0 (501/10) 20).fanOn = false ∧
    (loopStep (sysInit 0 0 20) 0 (29/10) 20).halted = true ∧
    (loopStep (sysInit 0 0 20) 0 (29/10) 20).compOn = false ∧
    (loopStep (sysInit 0 0 20) 0 (29/10) 20).solOn = false ∧
    (loopStep (sysInit 0 0 20) 0 (29/10) 20).fanOn = false ∧
    loopStep (errmesg (sysInit 0 0 20) 1) 1 20 20 = errmesg (sysInit 0 0 20) 1 := by
  obtain ⟨h1, h2⟩ := c1_safety_monitor
  obtain ⟨a1, a2, a3, a4⟩ := h1 (sysInit 0 0 20) 0 (501/10) 20 rfl
    (by norm_num [sysInit, read_temp, T_MIN, T_MAX, T2_MIN, T2_MAX])
  obtain ⟨b1, b2, b3, b4⟩ := h1 (sysInit 0 0 20) 0 (29/10) 20 rfl
    (by norm_num [sysInit, read_temp, T_MIN, T_MAX, T2_MIN, T2_MAX])
  exact ⟨a1, a2, a3, a4, b1, b2, b3, b4, h2 _ _ _ _ rfl⟩

/-- C9 (counterexample): one duty-loop iteration in the Starting state
writes the compressor and solenoid outputs on, yet the pump output keeps
exactly its initialization-time value: the loop does not drive the pump,
refuting the claim that the pump is written by the control core during
duty-loop operation like the other three actuators. -/
theorem c9_pump_counterexample :
    s2ce.pumpOn = false ∧ s2ce.compOn = false ∧ s2ce.solOn = false ∧
    (loopStep s2ce 4000 17 23).compOn = true ∧
    (loopStep s2ce 4000 17 23).solOn = true ∧
    (loopStep s2ce 4000 17 23).pumpOn = false := by
  refine ⟨rfl, rfl, rfl, ?_, ?_, ?_⟩ <;>
    norm_num [loopStep, machinePhase, machineStep, stateCycle, do_state_2, applyState,
      safeguard, displayTick, senseUpdate, read_temp, timeStep, s2ce, errmesg,
      targetTemp, hysteresis, T_MIN, T_MAX, T2_MIN, T2_MAX, M, SECOND, u32sub]
